import Mathlib

/-!
A shallow embedding of the Bitcoin network crawler
(`4. Crawling The Bitcoin Network/mycrawler.py`, with `crawler_four.py` as a
structurally identical earlier variant), together with proofs about the
embedded definitions.

Byte streams are embedded as `List Nat` (each element one byte), wall-clock
times and timeouts as `ℚ` (Python floats), and fallible decoding as
`Except BitcoinProtocolError`.  The helper module `lib.py` (wire codec) and
the node store `mydb.py` are imported by the source but are not part of the
repository snapshot; the definitions taken from them are modelled from the
specification and are marked `Modelled from the spec:` in their doc strings.
-/

/-- The protocol-decode error raised by the wire codec (`BitcoinProtocolError`
in `lib.py`).  Every decode failure relevant to the crawler is a truncated
stream. -/
inductive BitcoinProtocolError where
  | streamTruncated : BitcoinProtocolError
deriving DecidableEq, Repr

/-- Read exactly `n` bytes from the stream, failing with a protocol error when
the stream is too short. -/
def readBytesE (n : Nat) (s : List Nat) :
    Except BitcoinProtocolError (List Nat × List Nat) :=
  if s.length < n then Except.error BitcoinProtocolError.streamTruncated
  else Except.ok (s.take n, s.drop n)

/-- Little-endian interpretation of a byte list. -/
def leNat (bs : List Nat) : Nat :=
  bs.foldr (fun b acc => b + 256 * acc) 0

/-- Big-endian (network byte order) interpretation of a byte list. -/
def beNat (bs : List Nat) : Nat :=
  bs.foldl (fun acc b => 256 * acc + b) 0

/-- Modelled from the spec: `read_varint` from `lib.py` (absent from `src/`).
A compact unsigned integer: first byte below 0xFD is the value itself;
0xFD/0xFE/0xFF prefix a 2/4/8-byte little-endian value.  Fails with a
protocol error on stream exhaustion. -/
def read_varint (s : List Nat) :
    Except BitcoinProtocolError (Nat × List Nat) :=
  match s with
  | [] => Except.error BitcoinProtocolError.streamTruncated
  | i :: rest =>
    if i = 0xFF then
      (readBytesE 8 rest).map (fun p => (leNat p.1, p.2))
    else if i = 0xFE then
      (readBytesE 4 rest).map (fun p => (leNat p.1, p.2))
    else if i = 0xFD then
      (readBytesE 2 rest).map (fun p => (leNat p.1, p.2))
    else
      Except.ok (i, rest)

/-- Modelled from the spec: the textual rendering of the 16 raw IP bytes of a
network-address record, as produced inside `lib.py`'s `read_address` (absent
from `src/`).  The spec fixes only that IPv4 addresses arrive in the
IPv4-in-IPv6 mapped prefix and that `Node.ip` is a string; no claim depends
on the exact rendering, so we render mapped IPv4 addresses dotted-quad and
everything else as a dot-separated byte listing. -/
def renderIp (bs : List Nat) : String :=
  let mappedPrefix : List Nat := [0, 0, 0, 0, 0, 0, 0, 0, 0, 0, 0xFF, 0xFF]
  if bs.take 12 = mappedPrefix then
    String.intercalate "." ((bs.drop 12).map toString)
  else
    String.intercalate ":" (bs.map toString)

/-- One decoded network-address record: the fields of the dictionary returned
by `lib.py`'s `read_address`, as the spec describes it (timestamp, service
bits, ip, port). -/
structure AddressRec where
  timestamp : Option Nat
  services : Nat
  ip : String
  port : Nat
deriving DecidableEq, Repr

/-- Modelled from the spec: `read_address` from `lib.py` (absent from `src/`),
in the gossip-list framing: a 4-byte little-endian timestamp, 8 bytes of
service bits, 16 bytes of IP, and a 2-byte big-endian port, read in sequence
from the stream. -/
def read_address (s : List Nat) :
    Except BitcoinProtocolError (AddressRec × List Nat) := do
  let (ts, s) ← readBytesE 4 s
  let (sv, s) ← readBytesE 8 s
  let (ipb, s) ← readBytesE 16 s
  let (pb, s) ← readBytesE 2 s
  Except.ok ({ timestamp := some (leNat ts), services := leNat sv,
               ip := renderIp ipb, port := beNat pb }, s)

/-- Modelled from the spec: `read_address` in the handshake framing, where the
timestamp field is absent (used inside the version payload). -/
def read_address_no_ts (s : List Nat) :
    Except BitcoinProtocolError (AddressRec × List Nat) := do
  let (sv, s) ← readBytesE 8 s
  let (ipb, s) ← readBytesE 16 s
  let (pb, s) ← readBytesE 2 s
  Except.ok ({ timestamp := none, services := leNat sv,
               ip := renderIp ipb, port := beNat pb }, s)

/-- The peer's decoded version-handshake payload (the result of `lib.py`'s
`read_version_payload`, fields per the spec). -/
structure VersionPayload where
  version : Nat
  services : Nat
  timestamp : Nat
  receiver : AddressRec
  sender : AddressRec
  nonce : Nat
  user_agent : List Nat
  start_height : Nat
  relay : Option Nat
deriving DecidableEq, Repr

/-- Modelled from the spec: `read_version_payload` from `lib.py` (absent from
`src/`): fixed preamble (version, services, timestamp, receiver and sender
address records without timestamps, nonce), a varint-length-prefixed
user-agent string, a 4-byte start height, and an optional trailing relay
byte which is absent on short tails. -/
def read_version_payload (s : List Nat) :
    Except BitcoinProtocolError VersionPayload := do
  let (ver, s) ← readBytesE 4 s
  let (sv, s) ← readBytesE 8 s
  let (ts, s) ← readBytesE 8 s
  let (recv, s) ← read_address_no_ts s
  let (send, s) ← read_address_no_ts s
  let (nonce, s) ← readBytesE 8 s
  let (ualen, s) ← read_varint s
  let (ua, s) ← readBytesE ualen s
  let (sh, s) ← readBytesE 4 s
  let relay : Option Nat := match s with
    | [] => none
    | b :: _ => some b
  Except.ok { version := leNat ver, services := leNat sv, timestamp := leNat ts,
              receiver := recv, sender := send, nonce := leNat nonce,
              user_agent := ua, start_height := leNat sh, relay := relay }

/-- The decoded "addr" payload: the dictionary returned by
`read_addr_payload` (it has the single key `addresses`). -/
structure AddrPayload where
  addresses : List AddressRec
deriving DecidableEq, Repr

/-- Read `n` consecutive address records from the stream
(`[read_address(stream) for _ in range(count)]`). -/
def readAddresses : Nat → List Nat →
    Except BitcoinProtocolError (List AddressRec × List Nat)
  | 0, s => Except.ok ([], s)
  | n + 1, s => do
    let (a, s) ← read_address s
    let (as_, s) ← readAddresses n s
    Except.ok (a :: as_, s)

/-- `read_addr_payload` from `mycrawler.py`: read a varint count, then that
many address records; bytes remaining after the last record are left in the
stream (and discarded by the caller). -/
def read_addr_payload (s : List Nat) :
    Except BitcoinProtocolError AddrPayload := do
  let (count, s) ← read_varint s
  let (as_, _) ← readAddresses count s
  Except.ok { addresses := as_ }

/-- The `Node` class of `mycrawler.py`: a candidate peer.  Python defaults
`next_visit` to `time.time()` at construction; the embedded constructor for
freshly discovered nodes uses `none` for that creation-time default (no claim
inspects it). -/
structure Node where
  ip : String
  port : Nat
  id : Option Nat
  next_visit : Option ℚ
  visits_missed : Option Nat
deriving DecidableEq, Repr

/-- The `address` property of `Node`: the `(ip, port)` pair. -/
def Node.address (n : Node) : String × Nat :=
  (n.ip, n.port)

/-- `Node(a['ip'], a['port'])` as built by `handle_addr` and by DNS seeding:
only ip and port are supplied, the remaining fields take their defaults. -/
def mkDiscoveredNode (ip : String) (port : Nat) : Node :=
  { ip := ip, port := port, id := none, next_visit := none,
    visits_missed := none }

/-- Modelled from the spec: the crawl frontier's node equality (the
deduplication used by `mydb.py`, absent from `src/`): Nodes compare equal by
their `(ip, port)` address pair. -/
def frontierEq (a b : Node) : Bool :=
  a.address = b.address

/-- One protocol frame as seen by `handle_msg` after `read_msg`: the decoded
command string and the raw payload bytes. -/
structure Msg where
  command : String
  payload : List Nat
deriving DecidableEq, Repr

/-- A message written to the socket by the connection (the `send_*` methods).
The crawler's own static version payload is serialized inside `lib.py`; its
bytes are irrelevant to every claim, so sends are recorded at command
granularity, keeping the payload only where the code computes it (pong echoes
the ping payload). -/
inductive SentMsg where
  | version : SentMsg
  | verack : SentMsg
  | pong (payload : List Nat) : SentMsg
  | getaddr : SentMsg
deriving DecidableEq, Repr

/-- The exceptions that can arise while an attempt runs: `OSError` from the
transport, `BitcoinProtocolError` from the codec, and the `TypeError` raised
when reflective dispatch resolves `handle_msg` itself (command `"msg"`) and
calls it with a spurious payload argument. -/
inductive Fault where
  | osError : Fault
  | protocolError : Fault
  | typeError : Fault
deriving DecidableEq, Repr

/-- An abstract socket handle. -/
abbrev Socket := Nat

/-- The `Connection` class: per-attempt state.  Python initialises `start` to
`None` and assigns `time.time()` at the top of `open()`; `remain_alive` is
only ever called after `open()` has set it, so the embedding carries `start`
as a plain `ℚ` whose pre-open value (0) is never consulted. -/
structure Connection where
  node : Node
  timeout : ℚ
  sock : Option Socket
  start : ℚ
  peer_version_payload : Option VersionPayload
  nodes_discovered : List Node
  sent : List SentMsg
deriving DecidableEq, Repr

/-- `Connection.__init__(node, timeout)`. -/
def Connection.mkConn (node : Node) (timeout : ℚ) : Connection :=
  { node := node, timeout := timeout, sock := none, start := 0,
    peer_version_payload := none, nodes_discovered := [], sent := [] }

/-- `handle_version`: parse the peer's version payload into the attempt's
result, then send a verack.  A decode failure raises before the assignment,
leaving the state untouched. -/
def Connection.handle_version (c : Connection) (payload : List Nat) :
    Except Fault Connection :=
  match read_version_payload payload with
  | Except.error _ => Except.error Fault.protocolError
  | Except.ok vp =>
      Except.ok { c with peer_version_payload := some vp,
                         sent := c.sent ++ [SentMsg.verack] }

/-- `handle_verack`: request the peer's peers. -/
def Connection.handle_verack (c : Connection) (_payload : List Nat) :
    Connection :=
  { c with sent := c.sent ++ [SentMsg.getaddr] }

/-- `handle_ping`: echo the payload back as a pong. -/
def Connection.handle_ping (c : Connection) (payload : List Nat) :
    Connection :=
  { c with sent := c.sent ++ [SentMsg.pong payload] }

/-- `handle_addr`: decode the address-list payload; when it carries more than
one address, record every address as a discovered `Node` (the list is
extended, one `Node` per record).  A decode failure raises before any state
change. -/
def Connection.handle_addr (c : Connection) (payload : List Nat) :
    Except Fault Connection :=
  match read_addr_payload payload with
  | Except.error _ => Except.error Fault.protocolError
  | Except.ok p =>
      if 1 < p.addresses.length then
        let fresh := p.addresses.map (fun a => mkDiscoveredNode a.ip a.port)
        Except.ok { c with nodes_discovered := c.nodes_discovered ++ fresh }
      else
        Except.ok c

/-- The dispatch step of `handle_msg` after the frame has been read: Python
looks up the attribute `handle_<command>` with `hasattr`/`getattr`.  The
class attributes matching that pattern are exactly `handle_version`,
`handle_verack`, `handle_ping`, `handle_addr` — and `handle_msg` itself, so a
frame whose command decodes to `"msg"` resolves the dispatcher and calls it
with a payload argument it does not accept, raising a `TypeError`.  Any other
command has no handler and is ignored. -/
def Connection.dispatchMsg (c : Connection) (m : Msg) :
    Except Fault Connection :=
  if m.command = "version" then c.handle_version m.payload
  else if m.command = "verack" then Except.ok (c.handle_verack m.payload)
  else if m.command = "ping" then Except.ok (c.handle_ping m.payload)
  else if m.command = "addr" then c.handle_addr m.payload
  else if m.command = "msg" then Except.error Fault.typeError
  else Except.ok c

/-- `remain_alive`, evaluated at wall-clock time `now`: the attempt has timed
out when `now - start` exceeds the timeout, and stays alive while it has not
timed out and no nodes have been discovered. -/
def Connection.remain_alive (c : Connection) (now : ℚ) : Bool :=
  let timed_out : Bool := decide (now - c.start > c.timeout)
  !timed_out && c.nodes_discovered.isEmpty

/-- One incoming read event: the wall-clock time observed by the
`remain_alive` check guarding the read, and the read's outcome — a decoded
frame, or the `OSError`/`BitcoinProtocolError` the read raised. -/
abbrev ReadEvent := ℚ × Except Fault Msg

/-- The message loop of `open()`: while `remain_alive()` holds, read and
dispatch one message.  A read fault or handler fault aborts the loop,
retaining the state accumulated so far; the event list running out
corresponds to an attempt whose remaining reads are not modelled. -/
def Connection.msgLoop : Connection → List ReadEvent →
    Connection × Option Fault
  | c, [] => (c, none)
  | c, (t, ev) :: rest =>
    if c.remain_alive t then
      match ev with
      | Except.error f => (c, some f)
      | Except.ok m =>
        match c.dispatchMsg m with
        | Except.error f => (c, some f)
        | Except.ok c' => Connection.msgLoop c' rest
    else (c, none)

/-- `Connection.close`: release the socket's handle if one was acquired; a
connection whose transport was never established has `sock = none` and the
call releases nothing.  The returned list is the handles released by the
call. -/
def Connection.close (c : Connection) : List Socket :=
  match c.sock with
  | none => []
  | some s => [s]

/-- The per-attempt environment: the wall-clock time at which `open()` starts,
the outcome of establishing the transport (`none` models an `OSError`), and
the subsequent read events. -/
structure AttemptEnv where
  startTime : ℚ
  connect : Option Socket
  msgs : List ReadEvent
deriving Repr

/-- `Connection.open`: record the start time, establish the transport (an
`OSError` aborts immediately), send the version message, then run the
message loop.  Returns the final state and the fault that aborted the
attempt, if any. -/
def Connection.openAttempt (e : AttemptEnv) (c : Connection) :
    Connection × Option Fault :=
  let c1 := { c with start := e.startTime }
  match e.connect with
  | none => (c1, some Fault.osError)
  | some s =>
    let c2 := { c1 with sock := some s, sent := c1.sent ++ [SentMsg.version] }
    Connection.msgLoop c2 e.msgs

/-- Is `needle` a prefix of `hay`?  (Character-list helper for Python's
substring containment.) -/
def charsPref : List Char → List Char → Bool
  | [], _ => true
  | _ :: _, [] => false
  | a :: ns, b :: hs => a = b && charsPref ns hs

/-- Does `needle` occur as a contiguous substring of `hay`?  (Python's
`needle in hay` on strings.) -/
def charsSub (needle : List Char) : List Char → Bool
  | [] => charsPref needle []
  | b :: hs => charsPref needle (b :: hs) || charsSub needle hs

/-- Python's `'onion' in address[0]`: substring containment on the ip
string. -/
def strContainsOnion (ip : String) : Bool :=
  charsSub "onion".toList ip.toList

/-- The transport opened by `create_connection`: either a SOCKS5 proxied
connection (recording the proxy endpoint; the call passes no timeout) or a
plain TCP connection with the timeout that was passed. -/
inductive Transport where
  | socks5 (proxyAddr : String) (proxyPort : Nat) (target : String × Nat) :
      Transport
  | tcp (target : String × Nat) (timeout : ℚ) : Transport
deriving DecidableEq, Repr

/-- `create_connection(address, timeout)` from `mycrawler.py`: when the ip
contains `'onion'`, connect through the SOCKS5 proxy at 127.0.0.1:9050 (the
timeout argument is not forwarded to this call); otherwise open a plain TCP
connection with the given timeout. -/
def create_connection (address : String × Nat) (timeout : ℚ) : Transport :=
  if strContainsOnion address.1 then
    Transport.socks5 "127.0.0.1" 9050 address
  else
    Transport.tcp address timeout

/-- The connect-establishment timeout a transport would enforce, if any. -/
def Transport.estTimeout : Transport → Option ℚ
  | Transport.socks5 _ _ _ => none
  | Transport.tcp _ t => some t

/-- Which transport kind was selected. -/
def Transport.isSocks5 : Transport → Bool
  | Transport.socks5 _ _ _ => true
  | Transport.tcp _ _ => false

/-- One pass through the body of `Worker.run` for one dequeued node:
construct the `Connection`, run `open()` inside the try block, always run
`conn.close()` in the finally block.  Returns the connection object, the
fault `open()` raised (if any), and the socket handles the close released. -/
def runAttempt (e : AttemptEnv) (node : Node) (timeout : ℚ) :
    Connection × Option Fault × List Socket :=
  let c0 := Connection.mkConn node timeout
  let r := Connection.openAttempt e c0
  (r.1, r.2, r.1.close)

/-- `Worker.run` over a queue of nodes, with `env` giving each node's attempt
environment: for each node run one attempt; `OSError` and
`BitcoinProtocolError` are caught by the except clause, the connection is
pushed onto the output queue, and the loop continues.  Any other exception
(the dispatch `TypeError`) is not caught: the finally clause still closes the
connection, but the put is never reached and the loop dies.  Returns the
contents pushed to the output queue and the escaped fault, if any. -/
def workerRun (env : Node → AttemptEnv) (timeout : ℚ) :
    List Node → List Connection × Option Fault
  | [] => ([], none)
  | n :: ns =>
    let r := runAttempt (env n) n timeout
    match r.2.1 with
    | some Fault.typeError => ([], some Fault.typeError)
    | _ =>
      let rest := workerRun env timeout ns
      (r.1 :: rest.1, rest.2)

/-- The state of the orchestrator's two queues, observed by one iteration of
`Crawler.main_loop` (`num_workers` is the length of `self.workers`). -/
structure CrawlerState where
  num_workers : Nat
  worker_inputs : List Node
  worker_outputs : List Connection
deriving Repr

/-- `Crawler.batch_size`: the worker count times ten. -/
def batch_size (num_workers : Nat) : Nat :=
  num_workers * 10

/-- The frontier (`mydb`) interface used by the scheduling loop: `next_nodes`
answers a request for up to `n` nodes due for a visit. -/
structure Frontier where
  next_nodes : Nat → List Node

/-- The store interactions one iteration of `main_loop` performed:
`requested` is the batch size passed to `db.next_nodes` (none when the input
queue was full enough), and `flushed` is the batch of connections handed to
`db.process_crawler_outputs` in one call (none when the output queue was
not full enough). -/
structure LoopEffects where
  requested : Option Nat
  flushed : Option (List Connection)
deriving Repr

/-- One iteration of `Crawler.main_loop` (the report print has no effect on
state): refill the input queue from the frontier when it holds fewer than
`batch_size` tasks, then drain the whole output queue to the frontier when it
holds more than `batch_size` finished attempts. -/
def main_loop_iter (f : Frontier) (s : CrawlerState) :
    CrawlerState × LoopEffects :=
  let bs := batch_size s.num_workers
  let refill := decide (s.worker_inputs.length < bs)
  let s1 :=
    if refill then
      { s with worker_inputs := s.worker_inputs ++ f.next_nodes bs }
    else s
  let drain := decide (bs < s1.worker_outputs.length)
  let s2 := if drain then { s1 with worker_outputs := [] } else s1
  (s2, { requested := if refill then some bs else none,
         flushed := if drain then some s1.worker_outputs else none })

/-- Does this frame, once decoded, carry more than one address?  (The
condition under which `handle_addr` records discoveries.) -/
def multiAddr (m : Msg) : Bool :=
  m.command = "addr" &&
    (match read_addr_payload m.payload with
     | Except.ok p => decide (1 < p.addresses.length)
     | Except.error _ => false)

/-- The discovered `Node`s an "addr" frame contributes: one per decoded
address record, carrying that record's ip and port. -/
def addrNodes (m : Msg) : List Node :=
  match read_addr_payload m.payload with
  | Except.ok p => p.addresses.map (fun a => mkDiscoveredNode a.ip a.port)
  | Except.error _ => []

/-- Does a read event deliver a frame carrying more than one address? -/
def eventMultiAddr (ev : ReadEvent) : Bool :=
  match ev.2 with
  | Except.ok m => multiAddr m
  | Except.error _ => false

/-- A concrete peer node used to instantiate theorems. -/
def node0 : Node := mkDiscoveredNode "203.0.113.5" 8333

/-- A freshly constructed connection to `node0`. -/
def connEx : Connection := Connection.mkConn node0 10

/-- A connection whose attempt started at time 0 with a 10-second budget and
no discoveries. -/
def connBoundary : Connection :=
  { node := node0, timeout := 10, sock := none, start := 0,
    peer_version_payload := none, nodes_discovered := [], sent := [] }

/-- The wire bytes of one gossip address record: zero timestamp, zero service
bits, the IPv4-mapped address 1.2.3.4, and port 8333 in network order. -/
def addrRecBytes : List Nat :=
  [0, 0, 0, 0] ++ [0, 0, 0, 0, 0, 0, 0, 0] ++
    [0, 0, 0, 0, 0, 0, 0, 0, 0, 0, 255, 255, 1, 2, 3, 4] ++ [32, 141]

/-- The decoded form of `addrRecBytes`. -/
def addrRecW : AddressRec :=
  { timestamp := some 0, services := 0, ip := "1.2.3.4", port := 8333 }

/-- An "addr" payload carrying two copies of the record above. -/
def addr2Bytes : List Nat := 2 :: (addrRecBytes ++ addrRecBytes)

/-- The decoded form of `addr2Bytes`. -/
def addr2Payload : AddrPayload := { addresses := [addrRecW, addrRecW] }

/-- Concrete worker-queue nodes for instantiating the worker theorems. -/
def nodeA : Node := mkDiscoveredNode "198.51.100.1" 8333

/-- A second concrete worker-queue node. -/
def nodeB : Node := mkDiscoveredNode "198.51.100.2" 8333

/-- An environment in which connecting to `nodeA` raises an `OSError` and
connecting to anything else succeeds and delivers no frames. -/
def envW : Node → AttemptEnv := fun n =>
  if n.ip = "198.51.100.1" then
    { startTime := 0, connect := none, msgs := [] }
  else
    { startTime := 0, connect := some 7, msgs := [] }

/-- A frontier answering every batch request in full with copies of
`nodeA`. -/
def frontierW : Frontier :=
  { next_nodes := fun n => List.replicate n nodeA }

/-- An orchestrator snapshot with two workers and both queues empty. -/
def crawlerW : CrawlerState :=
  { num_workers := 2, worker_inputs := [], worker_outputs := [] }

/-- C1: a decoded "addr" payload with exactly one address record leaves the
connection unchanged (zero nodes gained), and one with two or more records
extends `nodes_discovered` by one `Node` per record, carrying each record's
ip and port, so the number of nodes added equals the payload's address
count. -/
theorem handle_addr_discovery_threshold (c : Connection) (bytes : List Nat)
    (p : AddrPayload) (h : read_addr_payload bytes = Except.ok p) :
    (p.addresses.length = 1 → c.handle_addr bytes = Except.ok c) ∧
    (2 ≤ p.addresses.length →
      ∃ c', c.handle_addr bytes = Except.ok c' ∧
        c'.nodes_discovered = c.nodes_discovered ++
          p.addresses.map (fun a => mkDiscoveredNode a.ip a.port) ∧
        c'.nodes_discovered.length
          = c.nodes_discovered.length + p.addresses.length) := by
  have hh : c.handle_addr bytes =
      if 1 < p.addresses.length then
        Except.ok { c with nodes_discovered :=
          (c.nodes_discovered ++
            p.addresses.map (fun a => mkDiscoveredNode a.ip a.port)) }
      else Except.ok c := by
    simp [Connection.handle_addr, h]
  constructor
  · intro h1
    rw [hh, if_neg (by omega)]
  · intro h2
    rw [hh, if_pos (by omega)]
    exact ⟨_, rfl, rfl, by simp⟩

/-- Witness for C1 at a concrete two-record payload. -/
theorem handle_addr_discovery_threshold_witness :
    read_addr_payload addr2Bytes = Except.ok addr2Payload ∧
    2 ≤ addr2Payload.addresses.length ∧
    ∃ c', connEx.handle_addr addr2Bytes = Except.ok c' ∧
      c'.nodes_discovered = connEx.nodes_discovered ++
        addr2Payload.addresses.map (fun a => mkDiscoveredNode a.ip a.port) ∧
      c'.nodes_discovered.length
        = connEx.nodes_discovered.length + addr2Payload.addresses.length :=
  ⟨rfl, by decide,
    (handle_addr_discovery_threshold connEx addr2Bytes addr2Payload rfl).2
      (by decide)⟩

/-- C2 counterexample: a connection whose elapsed time has exactly reached
its timeout with zero discovered nodes still reports alive, although the
claim says an attempt whose elapsed time has reached the timeout reports not
alive (the code times out only strictly beyond the budget). -/
theorem remain_alive_boundary_cex :
    connBoundary.nodes_discovered = [] ∧
    (10 : ℚ) - connBoundary.start = connBoundary.timeout ∧
    connBoundary.remain_alive 10 = true := by
  refine ⟨rfl, ?_, ?_⟩
  · simp [connBoundary]
  · simp [Connection.remain_alive, connBoundary]

/-- C2 (amended): the liveness check returns alive if and only if the
elapsed wall-clock time since the attempt started is at most (not strictly
below) the configured timeout and no nodes have been discovered. -/
theorem remain_alive_iff (c : Connection) (now : ℚ) :
    c.remain_alive now = true ↔
      now - c.start ≤ c.timeout ∧ c.nodes_discovered = [] := by
  simp [Connection.remain_alive, List.isEmpty_iff, not_lt]

/-- C3: dispatching a received frame whose command is not among the handled
commands is not always a silent no-op: reflective lookup of
`handle_<command>` also matches the dispatcher itself, so the command "msg"
resolves `handle_msg` and calls it with a payload argument it does not
accept, raising a `TypeError`; a command matching no attribute is indeed
ignored without effect or error. -/
theorem dispatch_msg_command_typeerror :
    connEx.dispatchMsg { command := "msg", payload := [] }
        = Except.error Fault.typeError ∧
    connEx.dispatchMsg { command := "getheaders", payload := [] }
        = Except.ok connEx :=
  ⟨rfl, rfl⟩

/-- C8: crawl-frontier equality of `Node` values is decided by the
`(ip, port)` address pair alone; any two nodes with the same ip and port are
frontier-equal regardless of their remaining fields. -/
theorem node_frontier_equality (a b : Node) :
    frontierEq a b = true ↔ a.ip = b.ip ∧ a.port = b.port := by
  simp [frontierEq, Node.address, Prod.ext_iff]

/-- C10: an "addr" payload whose varint count is zero decodes successfully
into an empty address list, and handling it leaves the connection (in
particular `nodes_discovered`) unchanged. -/
theorem addr_count_zero_ok (bytes rest : List Nat)
    (h : read_varint bytes = Except.ok (0, rest)) :
    read_addr_payload bytes = Except.ok { addresses := [] } ∧
    ∀ c : Connection, c.handle_addr bytes = Except.ok c := by
  have hp : read_addr_payload bytes = Except.ok { addresses := [] } := by
    simp [read_addr_payload, h, readAddresses, Bind.bind, Except.bind]
  exact ⟨hp, fun c => by simp [Connection.handle_addr, hp]⟩

/-- Witness for C10 at the one-byte payload `[0x00]`. -/
theorem addr_count_zero_ok_witness :
    read_varint [0] = Except.ok (0, []) ∧
    read_addr_payload [0] = Except.ok { addresses := [] } ∧
    connEx.handle_addr [0] = Except.ok connEx :=
  ⟨rfl, (addr_count_zero_ok [0] [] rfl).1, (addr_count_zero_ok [0] [] rfl).2 connEx⟩

/-- C5 counterexample: for an onion-service address the SOCKS5 call is made
without the configured timeout — the transport opened is independent of the
timeout argument — refuting the claim that in both cases the configured
timeout is applied to connection establishment. -/
theorem create_connection_onion_timeout_cex :
    strContainsOnion "abc.onion" = true ∧
    (create_connection ("abc.onion", 8333) 10).estTimeout = none ∧
    create_connection ("abc.onion", 8333) 10
      = create_connection ("abc.onion", 8333) 999 :=
  ⟨rfl, rfl, rfl⟩

/-- C5 (amended): transport selection is purely a function of the target
address string: an ip containing "onion" is connected through the SOCKS5
proxy at the fixed endpoint 127.0.0.1:9050 with no establishment timeout
forwarded, and every other address connects by plain TCP with the configured
timeout applied. -/
theorem create_connection_selection (address : String × Nat) (t t' : ℚ) :
    (strContainsOnion address.1 = true →
      create_connection address t
        = Transport.socks5 "127.0.0.1" 9050 address ∧
      (create_connection address t).estTimeout = none) ∧
    (strContainsOnion address.1 = false →
      create_connection address t = Transport.tcp address t ∧
      (create_connection address t).estTimeout = some t) ∧
    (create_connection address t).isSocks5
      = (create_connection address t').isSocks5 := by
  unfold create_connection
  by_cases h : strContainsOnion address.1 <;>
    simp [h, Transport.estTimeout, Transport.isSocks5]

/-- Witness for C5 at one onion and one ordinary address. -/
theorem create_connection_selection_witness :
    (strContainsOnion "abc.onion" = true ∧
      create_connection ("abc.onion", 8333) 10
        = Transport.socks5 "127.0.0.1" 9050 ("abc.onion", 8333)) ∧
    (strContainsOnion "203.0.113.9" = false ∧
      create_connection ("203.0.113.9", 8333) 10
        = Transport.tcp ("203.0.113.9", 8333) 10) :=
  ⟨⟨rfl, ((create_connection_selection ("abc.onion", 8333) 10 10).1 rfl).1⟩,
   ⟨rfl, ((create_connection_selection ("203.0.113.9", 8333) 10 10).2.1 rfl).1⟩⟩

/-- C6: one scheduling-loop iteration requests a batch of exactly
`batch_size` nodes from the frontier and enqueues them if and only if the
input queue holds fewer than `batch_size` tasks; it drains all completed
attempts to the frontier in one call if and only if the output queue holds
more than `batch_size` of them; and `batch_size` is the worker count times
the fixed multiplier 10. -/
theorem main_loop_batching (f : Frontier) (s : CrawlerState) :
    batch_size s.num_workers = s.num_workers * 10 ∧
    ((main_loop_iter f s).2.requested = some (batch_size s.num_workers) ↔
      s.worker_inputs.length < batch_size s.num_workers) ∧
    (s.worker_inputs.length < batch_size s.num_workers →
      (main_loop_iter f s).1.worker_inputs
        = s.worker_inputs ++ f.next_nodes (batch_size s.num_workers)) ∧
    (¬ s.worker_inputs.length < batch_size s.num_workers →
      (main_loop_iter f s).2.requested = none ∧
      (main_loop_iter f s).1.worker_inputs = s.worker_inputs) ∧
    ((main_loop_iter f s).2.flushed.isSome ↔
      batch_size s.num_workers < s.worker_outputs.length) ∧
    (batch_size s.num_workers < s.worker_outputs.length →
      (main_loop_iter f s).2.flushed = some s.worker_outputs ∧
      (main_loop_iter f s).1.worker_outputs = []) ∧
    (¬ batch_size s.num_workers < s.worker_outputs.length →
      (main_loop_iter f s).2.flushed = none ∧
      (main_loop_iter f s).1.worker_outputs = s.worker_outputs) := by
  by_cases hr : s.worker_inputs.length < s.num_workers * 10 <;>
    by_cases hd : s.num_workers * 10 < s.worker_outputs.length <;>
      simp [main_loop_iter, batch_size, hr, hd]

/-- Witness for C6 at a two-worker crawler with empty queues. -/
theorem main_loop_batching_witness :
    crawlerW.worker_inputs.length < batch_size crawlerW.num_workers ∧
    (main_loop_iter frontierW crawlerW).1.worker_inputs
      = crawlerW.worker_inputs
        ++ frontierW.next_nodes (batch_size crawlerW.num_workers) ∧
    (¬ batch_size crawlerW.num_workers < crawlerW.worker_outputs.length) ∧
    (main_loop_iter frontierW crawlerW).2.flushed = none :=
  ⟨by decide,
   (main_loop_batching frontierW crawlerW).2.2.1 (by decide),
   by decide,
   ((main_loop_batching frontierW crawlerW).2.2.2.2.2.2 (by decide)).1⟩

/-- A successful dispatch never touches the socket field: every handler
updates only the result fields and the send log. -/
theorem dispatchMsg_sock {c c' : Connection} {m : Msg}
    (h : c.dispatchMsg m = Except.ok c') : c'.sock = c.sock := by
  unfold Connection.dispatchMsg at h
  split_ifs at h
  · unfold Connection.handle_version at h
    cases hv : read_version_payload m.payload with
    | error e => rw [hv] at h; cases h
    | ok vp => rw [hv] at h; injection h with h; rw [← h]
  · injection h with h; rw [← h]; rfl
  · injection h with h; rw [← h]; rfl
  · unfold Connection.handle_addr at h
    cases hp : read_addr_payload m.payload with
    | error e => rw [hp] at h; cases h
    | ok p =>
      rw [hp] at h
      dsimp only at h
      by_cases hl : 1 < p.addresses.length
      · rw [if_pos hl] at h; injection h with h; rw [← h]
      · rw [if_neg hl] at h; injection h with h; rw [← h]
  · injection h with h; rw [← h]

/-- The message loop never touches the socket field. -/
theorem msgLoop_sock (c : Connection) (evs : List ReadEvent) :
    (Connection.msgLoop c evs).1.sock = c.sock := by
  induction evs generalizing c with
  | nil => rfl
  | cons e rest ih =>
    obtain ⟨t, ev⟩ := e
    by_cases hal : c.remain_alive t = true
    · cases ev with
      | error f => simp [Connection.msgLoop, hal]
      | ok m =>
        cases hd : c.dispatchMsg m with
        | error f => simp [Connection.msgLoop, hal, hd]
        | ok c' =>
          have hs := dispatchMsg_sock hd
          simp [Connection.msgLoop, hal, hd, ih c', hs]
    · have hal' : c.remain_alive t = false := by
        simpa using hal
      simp [Connection.msgLoop, hal']

/-- Once a node has been discovered, the liveness check fails and the message
loop exits immediately without reading anything. -/
theorem msgLoop_of_discovered {c : Connection} (evs : List ReadEvent)
    (h : c.nodes_discovered ≠ []) :
    Connection.msgLoop c evs = (c, none) := by
  cases evs with
  | nil => rfl
  | cons e rest =>
    obtain ⟨t, ev⟩ := e
    have hal : c.remain_alive t = false := by
      simp [Connection.remain_alive, List.isEmpty_iff, h]
    simp [Connection.msgLoop, hal]

/-- A frame that carries more than one address contributes a nonempty node
list. -/
theorem addrNodes_ne_nil {m : Msg} (h : multiAddr m = true) :
    addrNodes m ≠ [] := by
  unfold multiAddr at h
  unfold addrNodes
  cases hp : read_addr_payload m.payload with
  | error e => rw [hp] at h; simp at h
  | ok p =>
    rw [hp] at h
    simp only [Bool.and_eq_true, decide_eq_true_eq] at h
    simp only [ne_eq, List.map_eq_nil_iff]
    intro hnil
    rw [hnil] at h
    simp at h

/-- A successful dispatch either appends exactly the nodes of a
more-than-one-address "addr" frame to `nodes_discovered`, or (for every other
frame) leaves `nodes_discovered` unchanged. -/
theorem dispatchMsg_nodes {c c' : Connection} {m : Msg}
    (h : c.dispatchMsg m = Except.ok c') :
    (multiAddr m = true ∧
      c'.nodes_discovered = c.nodes_discovered ++ addrNodes m) ∨
    (multiAddr m = false ∧ c'.nodes_discovered = c.nodes_discovered) := by
  unfold Connection.dispatchMsg at h
  split_ifs at h with h1 h2 h3 h4 h5
  · right
    unfold Connection.handle_version at h
    cases hv : read_version_payload m.payload with
    | error e => rw [hv] at h; cases h
    | ok vp =>
      rw [hv] at h; injection h with h
      exact ⟨by simp [multiAddr, h1], by rw [← h]⟩
  · right
    injection h with h
    exact ⟨by simp [multiAddr, h2], by rw [← h]; rfl⟩
  · right
    injection h with h
    exact ⟨by simp [multiAddr, h3], by rw [← h]; rfl⟩
  · unfold Connection.handle_addr at h
    cases hp : read_addr_payload m.payload with
    | error e => rw [hp] at h; cases h
    | ok p =>
      rw [hp] at h
      dsimp only at h
      by_cases hl : 1 < p.addresses.length
      · rw [if_pos hl] at h; injection h with h
        left
        refine ⟨by simp [multiAddr, h4, hp, hl], ?_⟩
        rw [← h]
        simp [addrNodes, hp]
      · rw [if_neg hl] at h; injection h with h
        right
        exact ⟨by simp [multiAddr, h4, hp, hl], by rw [← h]⟩
  · right
    injection h with h
    exact ⟨by simp [multiAddr, h4], by rw [← h]⟩

/-- C4: for every attempt run by a worker, transport (`OSError`) and protocol
(`BitcoinProtocolError`) faults are caught inside the loop: every queued node
yields exactly one connection on the output queue — the attempt's state with
whatever partial results were captured before the fault — in queue order, and
no such fault escapes the worker. -/
theorem worker_fault_isolation (env : Node → AttemptEnv) (t : ℚ)
    (ns : List Node)
    (h : ∀ n ∈ ns, (runAttempt (env n) n t).2.1 ≠ some Fault.typeError) :
    workerRun env t ns =
      (ns.map (fun n =>
        (Connection.openAttempt (env n) (Connection.mkConn n t)).1), none) := by
  induction ns with
  | nil => rfl
  | cons n ns ih =>
    have hn := h n (List.mem_cons_self n ns)
    have ihr := ih (fun m hm => h m (List.mem_cons_of_mem n hm))
    cases hf : (Connection.openAttempt (env n) (Connection.mkConn n t)).2 with
    | none => simp [workerRun, runAttempt, hf, ihr]
    | some f =>
      cases f with
      | typeError => exact absurd (by simp [runAttempt, hf]) hn
      | osError => simp [workerRun, runAttempt, hf, ihr]
      | protocolError => simp [workerRun, runAttempt, hf, ihr]

/-- Witness for C4: the first queued node's connect raises an `OSError`, yet
its attempt is reported and the second node is still processed. -/
theorem worker_fault_isolation_witness :
    (∀ n ∈ [nodeA, nodeB],
      (runAttempt (envW n) n 10).2.1 ≠ some Fault.typeError) ∧
    workerRun envW 10 [nodeA, nodeB] =
      ([nodeA, nodeB].map (fun n =>
        (Connection.openAttempt (envW n) (Connection.mkConn n 10)).1), none) :=
  ⟨by decide, worker_fault_isolation envW 10 [nodeA, nodeB] (by decide)⟩

/-- C7: the finally clause of a worker's attempt releases exactly the socket
handle the attempt acquired — one close of one handle when the transport was
established, regardless of how the attempt ended — and closing a connection
whose transport was never established releases nothing. -/
theorem connection_closed_exactly_once (e : AttemptEnv) (node : Node)
    (t : ℚ) :
    (runAttempt e node t).2.2 =
      (match e.connect with
       | some s => [s]
       | none => []) ∧
    (Connection.mkConn node t).close = [] := by
  constructor
  · unfold runAttempt Connection.openAttempt
    cases hc : e.connect with
    | none => rfl
    | some s =>
      dsimp only
      unfold Connection.close
      rw [msgLoop_sock]
  · rfl

/-- C9: starting from a connection with no discoveries, the message loop
ends with `nodes_discovered` either empty or exactly the nodes of one single
"addr" frame carrying more than one address — the first such frame
delivered — because discovery fails the liveness check before the next
read. -/
theorem nodes_discovered_single_payload (c : Connection)
    (evs : List ReadEvent) (h : c.nodes_discovered = []) :
    (Connection.msgLoop c evs).1.nodes_discovered = [] ∨
    ∃ pre t m post,
      evs = pre ++ (t, Except.ok m) :: post ∧
      multiAddr m = true ∧
      (Connection.msgLoop c evs).1.nodes_discovered = addrNodes m ∧
      ∀ ev ∈ pre, eventMultiAddr ev = false := by
  induction evs generalizing c with
  | nil => left; simpa [Connection.msgLoop] using h
  | cons e rest ih =>
    obtain ⟨t, ev⟩ := e
    by_cases hal : c.remain_alive t = true
    · cases ev with
      | error f =>
        left
        simpa [Connection.msgLoop, hal] using h
      | ok m =>
        cases hd : c.dispatchMsg m with
        | error f =>
          left
          simpa [Connection.msgLoop, hal, hd] using h
        | ok c' =>
          have hstep : Connection.msgLoop c ((t, Except.ok m) :: rest)
              = Connection.msgLoop c' rest := by
            simp [Connection.msgLoop, hal, hd]
          rcases dispatchMsg_nodes hd with ⟨hma, hn⟩ | ⟨hma, hn⟩
          · right
            have hne : c'.nodes_discovered ≠ [] := by
              rw [hn, h]
              simpa using addrNodes_ne_nil hma
            refine ⟨[], t, m, rest, rfl, hma, ?_, by simp⟩
            rw [hstep, msgLoop_of_discovered rest hne]
            simp [hn, h]
          · have h' : c'.nodes_discovered = [] := by rw [hn, h]
            rcases ih c' h' with hnil | ⟨pre, t', m', post, heq, hm', hres, hpre⟩
            · left
              rw [hstep]
              exact hnil
            · right
              refine ⟨(t, Except.ok m) :: pre, t', m', post,
                by rw [heq, List.cons_append], hm', ?_, ?_⟩
              · rw [hstep]
                exact hres
              · intro ev hev
                rcases List.mem_cons.mp hev with rfl | hev'
                · simp [eventMultiAddr, hma]
                · exact hpre ev hev'
    · have hal' : c.remain_alive t = false := by simpa using hal
      left
      simpa [Connection.msgLoop, hal'] using h

/-- Witness for C9 at a connection with no discoveries and no read
events. -/
theorem nodes_discovered_single_payload_witness :
    connEx.nodes_discovered = [] ∧
    ((Connection.msgLoop connEx []).1.nodes_discovered = [] ∨
     ∃ pre t m post,
       ([] : List ReadEvent) = pre ++ (t, Except.ok m) :: post ∧
       multiAddr m = true ∧
       (Connection.msgLoop connEx []).1.nodes_discovered = addrNodes m ∧
       ∀ ev ∈ pre, eventMultiAddr ev = false) :=
  ⟨rfl, nodes_discovered_single_payload connEx [] rfl⟩
